import Mathlib

/-!
# Offline-first synchronization engine: a shallow embedding

This file embeds the offline-first synchronization engine of the
shelfie-frontend repository in Lean 4 and proves the specification's
claims about it.

The embedded sources are:
* the Zustand offline store (`offlineStore.ts`): the `QueuedOperation`
  data model and the store actions `addToQueue`, `removeFromQueue`,
  `incrementRetryCount`, `addSyncError`, `clearSyncErrors`,
  `setSyncing`, `setOnlineStatus`, `clearQueue`;
* `SyncService` (`syncService.ts`): `performSync`, `processOperation`,
  `syncProduct` / `syncUser` / `syncOrder` / `syncSupplier`,
  `triggerSync`, `getSyncStatus`;
* `OnlineFirstService` (`onlineFirstService.ts`): the online-first
  router `get` / `create` / `update` / `delete`, the offline fallbacks
  `createOfflineAndQueue` / `updateOfflineAndQueue` /
  `deleteOfflineAndQueue`, `addToSyncQueue`, `updateLocalData`,
  `isOnline`;
* `OnlineApiService` (`onlineApiService.ts`): `handleError`,
  `isNetworkError`, `checkConnectivity`.

Modelling conventions:
* Timestamps (`Date.now()`) are explicit `now : Nat` parameters.
* Operation ids (`Date.now()` plus a random suffix in the source, with
  the documented intent of global uniqueness) are modelled by a fresh
  counter `nextId` carried in the store state.
* Network and local-database I/O are environment oracles: a replay
  environment `env : String → Bool` says whether a given remote service
  call succeeds, and a local oracle `lex : LocalExec` interprets Tauri
  `invoke` commands on the local database.
* Entity payloads are abstracted to `Nat` tokens; the engine never
  inspects them.
-/

namespace OfflineSync

/-- JavaScript `x || d` on an optional number: `undefined`, `null` and
`0` are falsy and yield the default. -/
def jsOrNat (x : Option Nat) (d : Nat) : Nat :=
  match x with
  | none => d
  | some v => if v = 0 then d else v

/-- JavaScript `x || d` on an optional string: `undefined` and the empty
string are falsy and yield the default. -/
def jsOrStr (x : Option String) (d : String) : String :=
  match x with
  | none => d
  | some v => if v = "" then d else v

/-- The `data` field the router stores in a queued operation:
`{ endpoint, method, payload }` (`addToSyncQueue` in the source). -/
structure OpData where
  endpoint : String
  method : String
  payload : Nat
deriving Repr, DecidableEq

/-- `QueuedOperation` from `offlineStore.ts`.  The `entity` and `type`
fields are strings at runtime (the TypeScript union types are erased);
`addToSyncQueue` can and does produce values outside the declared
unions, so the embedding keeps them as `String`. -/
structure QueuedOperation where
  id : Nat
  type : String
  entity : String
  data : OpData
  timestamp : Nat
  retryCount : Nat
  maxRetries : Nat
deriving Repr, DecidableEq

/-- `OfflineData` from `offlineStore.ts` (cached entity lists). -/
structure OfflineData where
  products : List Nat
  users : List Nat
  suppliers : List Nat
  orders : List Nat
  movements : List Nat
  lastSync : Nat
deriving Repr, DecidableEq

/-- The offline store state (`OfflineState` in `offlineStore.ts`),
extended with the fresh-id counter `nextId` that models the source's
unique id generation (`Date.now()` + random suffix). -/
structure OfflineState where
  isOnline : Bool
  syncQueue : List QueuedOperation
  offlineData : OfflineData
  isSyncing : Bool
  lastSyncAttempt : Option Nat
  syncErrors : List String
  nextId : Nat
deriving Repr, DecidableEq

/-- An initial store state. -/
def initOfflineData : OfflineData :=
  { products := [], users := [], suppliers := [], orders := []
    movements := [], lastSync := 0 }

/-- `setOnlineStatus` store action (the sync-trigger side effect it
schedules is a separate engine action, see `Act`). -/
def setOnlineStatus (b : Bool) (s : OfflineState) : OfflineState :=
  { s with isOnline := b }

/-- `addToQueue` store action: appends a fresh operation with
`retryCount = 0` and `maxRetries = operation.maxRetries || 3`. -/
def addToQueue (entity ty : String) (data : OpData) (maxRetries : Nat)
    (now : Nat) (s : OfflineState) : OfflineState :=
  let newOperation : QueuedOperation :=
    { id := s.nextId
      type := ty
      entity := entity
      data := data
      timestamp := now
      retryCount := 0
      maxRetries := jsOrNat (some maxRetries) 3 }
  { s with syncQueue := s.syncQueue ++ [newOperation], nextId := s.nextId + 1 }

/-- `removeFromQueue` store action: filters the queue by id. -/
def removeFromQueue (operationId : Nat) (s : OfflineState) : OfflineState :=
  { s with syncQueue := s.syncQueue.filter (fun op => op.id != operationId) }

/-- `incrementRetryCount` store action: bumps `retryCount` of the
matching operation. -/
def incrementRetryCount (operationId : Nat) (s : OfflineState) : OfflineState :=
  { s with syncQueue := s.syncQueue.map (fun op =>
      if op.id == operationId then { op with retryCount := op.retryCount + 1 } else op) }

/-- `addSyncError` store action. -/
def addSyncError (e : String) (s : OfflineState) : OfflineState :=
  { s with syncErrors := s.syncErrors ++ [e] }

/-- `clearSyncErrors` store action. -/
def clearSyncErrors (s : OfflineState) : OfflineState :=
  { s with syncErrors := [] }

/-- `setSyncing` store action: also stamps `lastSyncAttempt` when a
sync starts. -/
def setSyncing (b : Bool) (now : Nat) (s : OfflineState) : OfflineState :=
  { s with isSyncing := b
           lastSyncAttempt := if b then some now else s.lastSyncAttempt }

/-- `updateOfflineData` store action (replaces one cached entity list).
The entity key is matched by name. -/
def updateOfflineData (entity : String) (data : List Nat) (s : OfflineState) :
    OfflineState :=
  let d := s.offlineData
  let d' :=
    if entity = "products" then { d with products := data }
    else if entity = "users" then { d with users := data }
    else if entity = "suppliers" then { d with suppliers := data }
    else if entity = "orders" then { d with orders := data }
    else if entity = "movements" then { d with movements := data }
    else d
  { s with offlineData := d' }

/-- `clearQueue` store action.  It is declared and defined in the store
but has no caller anywhere in the repository, so it is not an engine
action (`Act` below). -/
def clearQueue (s : OfflineState) : OfflineState :=
  { s with syncQueue := [] }

/-! ## Error classification (`OnlineApiService.handleError`) -/

/-- The shape of an axios error as `handleError` inspects it: the
transport error `code` (if any) and the HTTP status of the received
response (`none` when no response was received at all). -/
structure AxiosErr where
  code : Option String
  responseStatus : Option Nat
deriving Repr, DecidableEq

/-- The error the API service throws past itself: `NetworkError` or
`ApiError { status }` from `onlineApiService.ts`. -/
inductive ThrownError where
  | network
  | api (status : Nat)
deriving Repr, DecidableEq

/-- `OnlineApiService.handleError`: a caught axios error is rethrown as
`NetworkError` when its transport code is `ECONNREFUSED` / `ENOTFOUND` /
`ECONNABORTED` or when no response was received; otherwise as
`ApiError(error.response?.status || 500)`. -/
def handleError (e : AxiosErr) : ThrownError :=
  if e.code == some "ECONNREFUSED" || e.code == some "ENOTFOUND" ||
     e.code == some "ECONNABORTED" || e.responseStatus == none then
    ThrownError.network
  else
    ThrownError.api (jsOrNat e.responseStatus 500)

/-- `isNetworkError` from `onlineApiService.ts`:
`error instanceof NetworkError`. -/
def isNetworkError : ThrownError → Bool
  | ThrownError.network => true
  | ThrownError.api _ => false

/-- Claim C3's spec-side predicate, written from the spec's words: the
transport layer reported no response, a timeout (`ECONNABORTED` in
axios), or a connection / DNS failure (`ECONNREFUSED` / `ENOTFOUND`).
It exists only to be compared with the source-derived `handleError`. -/
def specTransportFailure (e : AxiosErr) : Prop :=
  e.responseStatus = none ∨ e.code = some "ECONNABORTED" ∨
  e.code = some "ECONNREFUSED" ∨ e.code = some "ENOTFOUND"

instance (e : AxiosErr) : Decidable (specTransportFailure e) := by
  unfold specTransportFailure
  infer_instance

/-! ## Connectivity (`OnlineApiService.checkConnectivity`,
`OnlineFirstService.isOnline`) -/

/-- Outcome of the connectivity probe request: either an HTTP response
was received, or the request threw (timeout, DNS failure, connection
failure, ...). -/
inductive ProbeResult where
  | response (status : Nat)
  | failure
deriving Repr, DecidableEq

/-- The probe's timeout in milliseconds (`timeout: 5000` in
`checkConnectivity`). -/
def connectivityTimeoutMs : Nat := 5000

/-- `OnlineApiService.checkConnectivity`: a GET on `/auth/me` with
`validateStatus: status < 500`, so a response with status `≥ 500` throws
and is caught (`false`), a response with status `< 500` yields
`response.status < 500` (`true`), and a probe that throws yields
`false`. -/
def checkConnectivity (probe : ProbeResult) : Bool :=
  match probe with
  | ProbeResult.response st => decide (st < 500)
  | ProbeResult.failure => false

/-- `OnlineFirstService.isOnline`:
`navigator.onLine && await onlineApiService.checkConnectivity()`. -/
def isOnlineCheck (navigatorOnLine : Bool) (probe : ProbeResult) : Bool :=
  navigatorOnLine && checkConnectivity probe

/-! ## Replay (`SyncService.processOperation` and helpers)

A replay environment `env : String → Bool` says, for each remote
service call the sync service can make (for example
`inventoryService.createProduct`), whether it succeeds or throws on
this attempt.  A replay returns the thrown error (if any) together with
the list of remote service calls actually issued. -/

instance : DecidableEq (Except String Unit) := fun a b =>
  match a, b with
  | Except.ok (), Except.ok () => isTrue rfl
  | Except.error x, Except.error y =>
      if h : x = y then isTrue (by rw [h])
      else isFalse (fun hc => h (by injection hc))
  | Except.ok _, Except.error _ => isFalse (fun hc => Except.noConfusion hc)
  | Except.error _, Except.ok _ => isFalse (fun hc => Except.noConfusion hc)

/-- Result of replaying one queued operation: the outcome and the remote
service calls issued (in order). -/
structure ReplayResult where
  result : Except String Unit
  calls : List String
deriving Repr, DecidableEq

/-- Whether a replay succeeded (the `try` in `performSync` did not catch). -/
def replayOk (r : ReplayResult) : Bool :=
  match r.result with
  | Except.ok _ => true
  | Except.error _ => false

/-- One remote service call: issues the call and succeeds or throws
according to the environment. -/
def callRemote (env : String → Bool) (name : String) : ReplayResult :=
  if env name then ⟨Except.ok (), [name]⟩
  else ⟨Except.error ("remote error: " ++ name), [name]⟩

/-- `SyncService.syncProduct`: a `switch` on the operation type whose
cases call the inventory service; any other type falls through the
`switch` and resolves without doing anything. -/
def syncProduct (env : String → Bool) (ty : String) : ReplayResult :=
  match ty with
  | "CREATE" => callRemote env "inventoryService.createProduct"
  | "UPDATE" => callRemote env "inventoryService.updateProduct"
  | "DELETE" => callRemote env "inventoryService.deleteProduct"
  | _ => ⟨Except.ok (), []⟩

/-- `SyncService.syncUser`. -/
def syncUser (env : String → Bool) (ty : String) : ReplayResult :=
  match ty with
  | "CREATE" => callRemote env "userService.createUser"
  | "UPDATE" => callRemote env "userService.updateUser"
  | "DELETE" => callRemote env "userService.deleteUser"
  | _ => ⟨Except.ok (), []⟩

/-- `SyncService.syncOrder`: `CREATE` creates the order and then
completes it; `UPDATE` has an empty case body (orders are not updated
after creation); `DELETE` cancels; anything else falls through. -/
def syncOrder (env : String → Bool) (ty : String) : ReplayResult :=
  match ty with
  | "CREATE" =>
      if env "posService.createOrder" then
        if env "posService.completeOrder" then
          ⟨Except.ok (), ["posService.createOrder", "posService.completeOrder"]⟩
        else
          ⟨Except.error "remote error: posService.completeOrder",
            ["posService.createOrder", "posService.completeOrder"]⟩
      else
        ⟨Except.error "remote error: posService.createOrder",
          ["posService.createOrder"]⟩
  | "UPDATE" => ⟨Except.ok (), []⟩
  | "DELETE" => callRemote env "posService.cancelOrder"
  | _ => ⟨Except.ok (), []⟩

/-- `SyncService.syncSupplier`. -/
def syncSupplier (env : String → Bool) (ty : String) : ReplayResult :=
  match ty with
  | "CREATE" => callRemote env "inventoryService.createSupplier"
  | "UPDATE" => callRemote env "inventoryService.updateSupplier"
  | "DELETE" => callRemote env "inventoryService.deleteSupplier"
  | _ => ⟨Except.ok (), []⟩

/-- `SyncService.processOperation`: dispatches on the operation's
`entity`; an entity outside `product` / `user` / `order` / `supplier`
throws `Unknown entity type: ...` (the declared entity `movement` is in
the union but has no case). -/
def processOperation (env : String → Bool) (op : QueuedOperation) : ReplayResult :=
  match op.entity with
  | "product" => syncProduct env op.type
  | "user" => syncUser env op.type
  | "order" => syncOrder env op.type
  | "supplier" => syncSupplier env op.type
  | _ => ⟨Except.error ("Unknown entity type: " ++ op.entity), []⟩

/-! ## The reconciliation pass (`SyncService.performSync`)

The source iterates over a snapshot `[...syncQueue]` of the queue while
the store actions mutate the live queue.  Because each replay is an
`await`, other tasks (the router's enqueues) can run between two
iterations; the embedding makes those interleavings explicit as a list
`mids`, giving for each iteration the enqueue requests that arrive
while that operation's replay is in flight.  Mid-pass enqueues go
through `addToQueue` and therefore get fresh ids. -/

/-- An enqueue request: the arguments of an `addToQueue` call. -/
structure EnqueueReq where
  entity : String
  type : String
  data : OpData
  maxRetries : Nat
  now : Nat

/-- Apply a batch of enqueue requests to the store. -/
def applyReqs (reqs : List EnqueueReq) (s : OfflineState) : OfflineState :=
  reqs.foldl (fun st r => addToQueue r.entity r.type r.data r.maxRetries r.now st) s

/-- The `syncErrors` message appended when an operation exceeds its
retries: `Failed to sync ${entity} ${type} after ${maxRetries} attempts`. -/
def failMsg (op : QueuedOperation) : String :=
  "Failed to sync " ++ op.entity ++ " " ++ op.type ++ " after " ++
    toString op.maxRetries ++ " attempts"

/-- One iteration of `performSync`'s `for` loop, for the snapshot
element `op`: replay; on success `removeFromQueue`; on failure
`incrementRetryCount`, and if the snapshot's `retryCount` already
reached `maxRetries`, `removeFromQueue` and `addSyncError`.  Note the
eviction test reads `operation.retryCount` from the snapshot element,
not the incremented value in the store.  Returns the new store state
and the remote calls issued. -/
def syncStep (env : String → Bool) (op : QueuedOperation) (s : OfflineState) :
    OfflineState × List String :=
  let r := processOperation env op
  match r.result with
  | Except.ok _ => (removeFromQueue op.id s, r.calls)
  | Except.error _ =>
      let s1 := incrementRetryCount op.id s
      if op.maxRetries ≤ op.retryCount then
        (addSyncError (failMsg op) (removeFromQueue op.id s1), r.calls)
      else
        (s1, r.calls)

/-- `performSync`'s `for` loop over the snapshot.  Also returns the
remote calls issued and the ids of the operations attempted, in order. -/
def syncLoop (env : String → Bool) :
    List QueuedOperation → List (List EnqueueReq) → OfflineState →
    OfflineState × List String × List Nat
  | [], _, s => (s, [], [])
  | op :: rest, mids, s =>
      let s0 := applyReqs (mids.headD []) s
      let (s1, calls) := syncStep env op s0
      let (s2, calls2, att2) := syncLoop env rest mids.tail s1
      (s2, calls ++ calls2, op.id :: att2)

/-- The observable outcome of one `performSync` invocation. -/
structure PassResult where
  state : OfflineState
  calls : List String
  attempted : List Nat

/-- `SyncService.performSync`: return immediately unless online, not
already syncing, and the queue is non-empty; otherwise set `isSyncing`,
clear `syncErrors`, snapshot the queue, run the loop over the snapshot,
and clear `isSyncing`. -/
def performSync (env : String → Bool) (mids : List (List EnqueueReq))
    (now : Nat) (s : OfflineState) : PassResult :=
  if !s.isOnline || s.isSyncing || s.syncQueue.isEmpty then ⟨s, [], []⟩
  else
    let s1 := clearSyncErrors (setSyncing true now s)
    let operationsToProcess := s1.syncQueue
    let (s2, calls, att) := syncLoop env operationsToProcess mids s1
    ⟨setSyncing false now s2, calls, att⟩

/-- `SyncService.triggerSync`: just calls `performSync`. -/
def triggerSync (env : String → Bool) (mids : List (List EnqueueReq))
    (now : Nat) (s : OfflineState) : PassResult :=
  performSync env mids now s

/-- The state after one pass (ignoring the trace components). -/
def passState (env : String → Bool) (mids : List (List EnqueueReq))
    (now : Nat) (s : OfflineState) : OfflineState :=
  (performSync env mids now s).state

/-- `n` reconciliation passes with no concurrent enqueues; pass `k`
uses the replay environment `envs k`. -/
def runPasses (envs : Nat → String → Bool) (now : Nat) :
    Nat → OfflineState → OfflineState
  | 0, s => s
  | n + 1, s => passState (envs n) [] now (runPasses envs now n s)

/-- `SyncService.getSyncStatus`. -/
structure SyncStatus where
  isOnline : Bool
  isSyncing : Bool
  queueLength : Nat
  hasErrors : Bool
  errors : List String
  lastSyncAttempt : Option Nat
deriving Repr, DecidableEq

/-- `SyncService.getSyncStatus`: a pure read of the store. -/
def getSyncStatus (s : OfflineState) : SyncStatus :=
  { isOnline := s.isOnline
    isSyncing := s.isSyncing
    queueLength := s.syncQueue.length
    hasErrors := decide (0 < s.syncErrors.length)
    errors := s.syncErrors
    lastSyncAttempt := s.lastSyncAttempt }

/-! ## The operation router (`OnlineFirstService`)

The router touches two external stores: the offline store above and the
local SQLite database behind Tauri `invoke` commands.  The local
database is modelled as an abstract record list and `invoke` as an
oracle `lex : LocalExec` mapping a command name and its argument to a
result and the updated database.  The remote outcome of the one call
the router makes is an environment input `remote`; when it is an error,
it is the `ThrownError` produced by `OnlineApiService.handleError`. -/

/-- The local database contents (abstract records). -/
abbrev LocalDb := List Nat

/-- The `invoke` oracle: command name and argument to result and new
database. -/
abbrev LocalExec := String → Nat → LocalDb → Nat × LocalDb

/-- The combined state the router acts on. -/
structure EngineState where
  store : OfflineState
  localDb : LocalDb
deriving Repr, DecidableEq

/-- Observable events of one router call, in order: the remote API
call, a local `invoke`, an `addToSyncQueue`, a toast notification. -/
inductive Ev where
  | remoteCall (endpoint : String)
  | localInvoke (command : String)
  | enqueue (operationType : String)
  | toast (msg : String)
deriving Repr, DecidableEq

/-- `operationType.split('_')` modelled structurally over the string's
characters (kernel-evaluable, unlike `String.splitOn`); agrees with
JavaScript `split` on every input, empty segments included. -/
def splitUnderscoreAux : List Char → List Char → List (List Char)
  | [], acc => [acc.reverse]
  | c :: cs, acc =>
      if c = '_' then acc.reverse :: splitUnderscoreAux cs []
      else splitUnderscoreAux cs (c :: acc)

/-- See `splitUnderscoreAux`. -/
def splitUnderscore (s : String) : List String :=
  (splitUnderscoreAux s.data []).map List.asString

/-- `toUpperCase()` on the ASCII range (all operation-type strings the
router uses are ASCII), modelled structurally. -/
def asciiUpperChar (c : Char) : Char :=
  if 'a' ≤ c ∧ c ≤ 'z' then Char.ofNat (c.toNat - 32) else c

/-- See `asciiUpperChar`. -/
def asciiUpper (s : String) : String :=
  (s.data.map asciiUpperChar).asString

/-- The `entityMap` lookup in `addToSyncQueue` (a record mapping each of
the five entity names to itself; other keys are absent). -/
def entityMapGet (e : String) : Option String :=
  if e == "product" || e == "user" || e == "order" || e == "supplier" ||
     e == "movement" then some e
  else none

/-- The `typeMap` lookup in `addToSyncQueue`. -/
def typeMapGet (t : String) : Option String :=
  if t == "create" then some "CREATE"
  else if t == "update" then some "UPDATE"
  else if t == "delete" then some "DELETE"
  else none

/-- `OnlineFirstService.addToSyncQueue`: splits the `operationType` at
`_` into entity and type parts, maps them through `entityMap` and
`typeMap` (falling back to the raw entity and the upper-cased type),
and enqueues with `data = { endpoint, method, payload }` and
`maxRetries = 5`.  Every call site passes an `operationType` containing
an underscore, so the second part is always present. -/
def addToSyncQueue (operationType endpoint method : String) (payload : Nat)
    (now : Nat) (s : OfflineState) : OfflineState :=
  let parts := splitUnderscore operationType
  let entity := parts.getD 0 ""
  let ty := parts.getD 1 ""
  let entity2 := jsOrStr (entityMapGet entity) entity
  let ty2 := jsOrStr (typeMapGet ty) (asciiUpper ty)
  addToQueue entity2 ty2 ⟨endpoint, method, payload⟩ 5 now s

/-- `OnlineFirstService.updateLocalData`: the body only logs ("This
would typically involve calling a Tauri command to update local SQLite.
For now, we'll just log it"), so it leaves the state unchanged, despite
its doc comment "Update local database with fresh data from server". -/
def updateLocalData (command : String) (data : Nat) (st : EngineState) :
    EngineState :=
  st

/-- The result of one router call: the value returned or the error
thrown, the new state, and the event trace. -/
structure RouterResult where
  result : Except ThrownError Nat
  state : EngineState
  events : List Ev
deriving Repr

/-- `OnlineFirstService.createOfflineAndQueue`: create locally first,
then `addToSyncQueue(operationType, endpoint, 'POST', data)`, then
toast. -/
def createOfflineAndQueue (lex : LocalExec) (data : Nat)
    (endpoint fallbackCommand operationType : String) (now : Nat)
    (st : EngineState) : RouterResult :=
  let result := (lex fallbackCommand data st.localDb).1
  let db := (lex fallbackCommand data st.localDb).2
  let store := addToSyncQueue operationType endpoint "POST" data now st.store
  { result := Except.ok result
    state := ⟨store, db⟩
    events := [Ev.localInvoke fallbackCommand, Ev.enqueue operationType,
               Ev.toast "Created offline. Will sync when online."] }

/-- `OnlineFirstService.updateOfflineAndQueue`: update locally first
(with `fallbackArgs`), then `addToSyncQueue(operationType, endpoint,
'PUT', data)`, then toast. -/
def updateOfflineAndQueue (lex : LocalExec) (data : Nat)
    (endpoint fallbackCommand : String) (fallbackArgs : Nat)
    (operationType : String) (now : Nat) (st : EngineState) : RouterResult :=
  let result := (lex fallbackCommand fallbackArgs st.localDb).1
  let db := (lex fallbackCommand fallbackArgs st.localDb).2
  let store := addToSyncQueue operationType endpoint "PUT" data now st.store
  { result := Except.ok result
    state := ⟨store, db⟩
    events := [Ev.localInvoke fallbackCommand, Ev.enqueue operationType,
               Ev.toast "Updated offline. Will sync when online."] }

/-- `OnlineFirstService.deleteOfflineAndQueue`: delete locally first,
then `addToSyncQueue(operationType, endpoint, 'DELETE', {})` (an empty
payload, modelled as `0`), then toast. -/
def deleteOfflineAndQueue (lex : LocalExec)
    (endpoint fallbackCommand : String) (fallbackArgs : Nat)
    (operationType : String) (now : Nat) (st : EngineState) : RouterResult :=
  let result := (lex fallbackCommand fallbackArgs st.localDb).1
  let db := (lex fallbackCommand fallbackArgs st.localDb).2
  let store := addToSyncQueue operationType endpoint "DELETE" 0 now st.store
  { result := Except.ok result
    state := ⟨store, db⟩
    events := [Ev.localInvoke fallbackCommand, Ev.enqueue operationType,
               Ev.toast "Deleted offline. Will sync when online."] }

/-- `OnlineFirstService.get`: if online, call the remote API; on
success, `updateLocalData` (the cache-refresh stub) and return the
result; on a network-classified error, fall back to the local `invoke`;
on any other error, rethrow.  If offline, read locally. -/
def routerGet (lex : LocalExec) (nav : Bool) (probe : ProbeResult)
    (remote : Except ThrownError Nat) (endpoint fallbackCommand : String)
    (fallbackArgs : Nat) (st : EngineState) : RouterResult :=
  if isOnlineCheck nav probe then
    match remote with
    | Except.ok result =>
        { result := Except.ok result
          state := updateLocalData fallbackCommand result st
          events := [Ev.remoteCall endpoint] }
    | Except.error e =>
        if isNetworkError e then
          { result := Except.ok (lex fallbackCommand fallbackArgs st.localDb).1
            state := { st with localDb := (lex fallbackCommand fallbackArgs st.localDb).2 }
            events := [Ev.remoteCall endpoint, Ev.localInvoke fallbackCommand] }
        else
          { result := Except.error e, state := st
            events := [Ev.remoteCall endpoint] }
  else
    { result := Except.ok (lex fallbackCommand fallbackArgs st.localDb).1
      state := { st with localDb := (lex fallbackCommand fallbackArgs st.localDb).2 }
      events := [Ev.localInvoke fallbackCommand] }

/-- `OnlineFirstService.create`: if online, POST remotely; on success,
`updateLocalData` with the server response and return it; on a
network-classified error, `createOfflineAndQueue`; on any other error,
rethrow.  If offline, `createOfflineAndQueue`. -/
def routerCreate (lex : LocalExec) (nav : Bool) (probe : ProbeResult)
    (remote : Except ThrownError Nat) (endpoint : String) (data : Nat)
    (fallbackCommand operationType : String) (now : Nat)
    (st : EngineState) : RouterResult :=
  if isOnlineCheck nav probe then
    match remote with
    | Except.ok result =>
        { result := Except.ok result
          state := updateLocalData fallbackCommand result st
          events := [Ev.remoteCall endpoint] }
    | Except.error e =>
        if isNetworkError e then
          let r := createOfflineAndQueue lex data endpoint fallbackCommand
            operationType now st
          { r with events := Ev.remoteCall endpoint :: r.events }
        else
          { result := Except.error e, state := st
            events := [Ev.remoteCall endpoint] }
  else
    createOfflineAndQueue lex data endpoint fallbackCommand operationType now st

/-- `OnlineFirstService.update`: like `create` with PUT and
`updateOfflineAndQueue`. -/
def routerUpdate (lex : LocalExec) (nav : Bool) (probe : ProbeResult)
    (remote : Except ThrownError Nat) (endpoint : String) (data : Nat)
    (fallbackCommand : String) (fallbackArgs : Nat) (operationType : String)
    (now : Nat) (st : EngineState) : RouterResult :=
  if isOnlineCheck nav probe then
    match remote with
    | Except.ok result =>
        { result := Except.ok result
          state := updateLocalData fallbackCommand result st
          events := [Ev.remoteCall endpoint] }
    | Except.error e =>
        if isNetworkError e then
          let r := updateOfflineAndQueue lex data endpoint fallbackCommand
            fallbackArgs operationType now st
          { r with events := Ev.remoteCall endpoint :: r.events }
        else
          { result := Except.error e, state := st
            events := [Ev.remoteCall endpoint] }
  else
    updateOfflineAndQueue lex data endpoint fallbackCommand fallbackArgs
      operationType now st

/-- `OnlineFirstService.delete`: if online, DELETE remotely; on success,
remove the record locally with `invoke(fallbackCommand, fallbackArgs)`
and return the remote result; on a network-classified error,
`deleteOfflineAndQueue`; on any other error, rethrow.  If offline,
`deleteOfflineAndQueue`. -/
def routerDelete (lex : LocalExec) (nav : Bool) (probe : ProbeResult)
    (remote : Except ThrownError Nat) (endpoint fallbackCommand : String)
    (fallbackArgs : Nat) (operationType : String) (now : Nat)
    (st : EngineState) : RouterResult :=
  if isOnlineCheck nav probe then
    match remote with
    | Except.ok result =>
        { result := Except.ok result
          state := { st with localDb := (lex fallbackCommand fallbackArgs st.localDb).2 }
          events := [Ev.remoteCall endpoint, Ev.localInvoke fallbackCommand] }
    | Except.error e =>
        if isNetworkError e then
          let r := deleteOfflineAndQueue lex endpoint fallbackCommand
            fallbackArgs operationType now st
          { r with events := Ev.remoteCall endpoint :: r.events }
        else
          { result := Except.error e, state := st
            events := [Ev.remoteCall endpoint] }
  else
    deleteOfflineAndQueue lex endpoint fallbackCommand fallbackArgs
      operationType now st

/-! ## The engine's actions on the offline store

Everything in the repository that mutates the offline store's queue and
error list goes through one of these actions: the router's
`addToSyncQueue`, `SyncService.queueOperation` (a direct `addToQueue`),
a reconciliation pass (`performSync`, possibly with enqueues arriving
mid-pass), the connectivity handlers (`setOnlineStatus`), and the
sidebar's `clearSyncErrors` button.  `clearQueue` has no caller in the
repository and so is not an action. -/

inductive Act where
  | enqueueAct (operationType endpoint method : String) (payload now : Nat)
  | queueOpAct (entity ty : String) (data : OpData) (maxRetries now : Nat)
  | passAct (env : String → Bool) (mids : List (List EnqueueReq)) (now : Nat)
  | setOnlineAct (b : Bool)
  | clearErrorsAct

/-- Apply one engine action to the store. -/
def stepAct : Act → OfflineState → OfflineState
  | Act.enqueueAct operationType endpoint method payload now, s =>
      addToSyncQueue operationType endpoint method payload now s
  | Act.queueOpAct entity ty data maxRetries now, s =>
      addToQueue entity ty data maxRetries now s
  | Act.passAct env mids now, s => passState env mids now s
  | Act.setOnlineAct b, s => setOnlineStatus b s
  | Act.clearErrorsAct, s => clearSyncErrors s

/-- Apply a sequence of engine actions, oldest first. -/
def runActs (acts : List Act) (s : OfflineState) : OfflineState :=
  acts.foldl (fun st a => stepAct a st) s

/-- The queue's ids, in queue order. -/
def queueIds (s : OfflineState) : List Nat :=
  s.syncQueue.map (fun op => op.id)

/-- The store invariant the engine maintains: every queued id is below
the fresh-id counter, and queued ids are pairwise distinct. -/
def StoreInv (s : OfflineState) : Prop :=
  (∀ x ∈ queueIds s, x < s.nextId) ∧ (queueIds s).Nodup

/-- Whether one loop iteration removes its snapshot operation from the
queue: replay succeeded, or the snapshot retry counter already reached
`maxRetries`. -/
def evicts (env : String → Bool) (op : QueuedOperation) : Bool :=
  replayOk (processOperation env op) || decide (op.maxRetries ≤ op.retryCount)

/-- The queued operation `addToSyncQueue` builds and appends when the
store's fresh-id counter is `nid`. -/
def enqueuedOp (operationType endpoint method : String)
    (payload now nid : Nat) : QueuedOperation :=
  let parts := splitUnderscore operationType
  let entity := parts.getD 0 ""
  let ty := parts.getD 1 ""
  { id := nid
    type := jsOrStr (typeMapGet ty) (asciiUpper ty)
    entity := jsOrStr (entityMapGet entity) entity
    data := ⟨endpoint, method, payload⟩
    timestamp := now
    retryCount := 0
    maxRetries := 5 }

/-! ### Concrete example data for witnesses and counterexamples -/

/-- A store state holding the single operation `op`, online and idle. -/
def singleOpState (op : QueuedOperation) : OfflineState :=
  { isOnline := true, syncQueue := [op], offlineData := initOfflineData
    isSyncing := false, lastSyncAttempt := none, syncErrors := []
    nextId := op.id + 1 }

/-- An empty, online, idle store state. -/
def emptyState : OfflineState :=
  { isOnline := true, syncQueue := [], offlineData := initOfflineData
    isSyncing := false, lastSyncAttempt := none, syncErrors := [], nextId := 1 }

/-- A product update whose remote replay can fail (claim C1). -/
def exFailingOp : QueuedOperation :=
  { id := 1, type := "UPDATE", entity := "product"
    data := ⟨"/inventory/products/7", "PUT", 0⟩
    timestamp := 0, retryCount := 0, maxRetries := 3 }

/-- A product creation whose remote replay can succeed (claim C5). -/
def exCreateOp : QueuedOperation :=
  { id := 1, type := "CREATE", entity := "product"
    data := ⟨"/inventory/products", "POST", 0⟩
    timestamp := 0, retryCount := 0, maxRetries := 3 }

/-- The product stock update the router enqueues with type `STOCK`
(claim C9). -/
def exStockOp : QueuedOperation :=
  { id := 1, type := "STOCK", entity := "product"
    data := ⟨"/inventory/products/7/stock", "PUT", 0⟩
    timestamp := 0, retryCount := 0, maxRetries := 5 }

/-- The sales-report operation the router enqueues offline via
`this.create(..., 'sales_report')`: entity `sales`, type `REPORT`
(claim C9's counterexample). -/
def exSalesOp : QueuedOperation :=
  { id := 1, type := "REPORT", entity := "sales"
    data := ⟨"/sales/reports/sales", "POST", 0⟩
    timestamp := 0, retryCount := 0, maxRetries := 5 }

/-- A stock-movement operation: `movement` is in the declared entity
union but `processOperation` has no case for it (claim C10). -/
def exMovementOp : QueuedOperation :=
  { id := 1, type := "CREATE", entity := "movement"
    data := ⟨"/stock-movements", "POST", 0⟩
    timestamp := 0, retryCount := 0, maxRetries := 3 }

/-- A local-database oracle for examples: every command appends its
argument and returns it. -/
def exLex : LocalExec := fun _ d db => (d, db ++ [d])

/-- An engine state over the empty store and empty local database. -/
def exEngineState : EngineState := ⟨emptyState, []⟩

/-! ## Basic lemmas -/

/-- Replay outcome does not depend on the operation's retry counter. -/
theorem processOperation_retryCount (env : String → Bool)
    (op : QueuedOperation) (n : Nat) :
    processOperation env { op with retryCount := n } = processOperation env op :=
  rfl

/-- The eviction message does not depend on the retry counter. -/
theorem failMsg_retryCount (op : QueuedOperation) (n : Nat) :
    failMsg { op with retryCount := n } = failMsg op :=
  rfl

/-- A pass over a one-element queue whose replay succeeds: the
operation is removed and no sync error is recorded. -/
theorem performSync_single_ok (env : String → Bool) (op : QueuedOperation)
    (s : OfflineState) (now : Nat)
    (hon : s.isOnline = true) (hsy : s.isSyncing = false)
    (hq : s.syncQueue = [op])
    (hok : replayOk (processOperation env op) = true) :
    performSync env [] now s =
      ⟨{ s with syncQueue := [], syncErrors := [],
                isSyncing := false, lastSyncAttempt := some now },
        (processOperation env op).calls, [op.id]⟩ := by
  cases hres : (processOperation env op).result with
  | ok u =>
      simp [performSync, passState, syncLoop, syncStep, applyReqs,
        clearSyncErrors, setSyncing, removeFromQueue, hq, hon, hsy, hres]
  | error m =>
      rw [replayOk, hres] at hok
      exact absurd hok (by simp)

/-- A pass over a one-element queue whose replay fails while the
snapshot retry counter is still below `maxRetries`: the operation stays
with its counter incremented, and no sync error is recorded. -/
theorem performSync_single_fail_keep (env : String → Bool)
    (op : QueuedOperation) (s : OfflineState) (now : Nat)
    (hon : s.isOnline = true) (hsy : s.isSyncing = false)
    (hq : s.syncQueue = [op])
    (hfail : replayOk (processOperation env op) = false)
    (hlt : op.retryCount < op.maxRetries) :
    performSync env [] now s =
      ⟨{ s with syncQueue := [{ op with retryCount := op.retryCount + 1 }],
                syncErrors := [],
                isSyncing := false, lastSyncAttempt := some now },
        (processOperation env op).calls, [op.id]⟩ := by
  cases hres : (processOperation env op).result with
  | ok u =>
      rw [replayOk, hres] at hfail
      exact absurd hfail (by simp)
  | error m =>
      have hnot : ¬ (op.maxRetries ≤ op.retryCount) := Nat.not_le.mpr hlt
      simp [performSync, passState, syncLoop, syncStep, applyReqs,
        clearSyncErrors, setSyncing, removeFromQueue, incrementRetryCount,
        addSyncError, hq, hon, hsy, hres, hnot]

/-- A pass over a one-element queue whose replay fails when the
snapshot retry counter has already reached `maxRetries`: the operation
is evicted and exactly one sync error is recorded. -/
theorem performSync_single_fail_evict (env : String → Bool)
    (op : QueuedOperation) (s : OfflineState) (now : Nat)
    (hon : s.isOnline = true) (hsy : s.isSyncing = false)
    (hq : s.syncQueue = [op])
    (hfail : replayOk (processOperation env op) = false)
    (hge : op.maxRetries ≤ op.retryCount) :
    performSync env [] now s =
      ⟨{ s with syncQueue := [], syncErrors := [failMsg op],
                isSyncing := false, lastSyncAttempt := some now },
        (processOperation env op).calls, [op.id]⟩ := by
  cases hres : (processOperation env op).result with
  | ok u =>
      rw [replayOk, hres] at hfail
      exact absurd hfail (by simp)
  | error m =>
      simp [performSync, passState, syncLoop, syncStep, applyReqs,
        clearSyncErrors, setSyncing, removeFromQueue, incrementRetryCount,
        addSyncError, hq, hon, hsy, hres, hge]

/-- Progress of repeated passes over a single operation whose replay
fails on every attempt: after `k ≤ maxRetries` passes the operation is
still queued with `retryCount = k` and no sync error has been
recorded. -/
theorem runPasses_fail_progress (envs : Nat → String → Bool)
    (op : QueuedOperation) (s : OfflineState) (now : Nat)
    (hon : s.isOnline = true) (hsy : s.isSyncing = false)
    (hq : s.syncQueue = [op]) (h0 : op.retryCount = 0)
    (hfail : ∀ k, replayOk (processOperation (envs k) op) = false) :
    ∀ k, k ≤ op.maxRetries →
      (runPasses envs now k s).syncQueue = [{ op with retryCount := k }] ∧
      (runPasses envs now k s).isOnline = true ∧
      (runPasses envs now k s).isSyncing = false ∧
      (runPasses envs now k s).syncErrors =
        (if k = 0 then s.syncErrors else []) := by
  intro k
  induction k with
  | zero =>
      intro _
      refine ⟨?_, hon, hsy, by simp [runPasses]⟩
      have : ({ op with retryCount := 0 } : QueuedOperation) = op := by
        rw [← h0]
      simpa [runPasses, this] using hq
  | succ k ih =>
      intro hk
      have hk' : k ≤ op.maxRetries := Nat.le_of_succ_le hk
      obtain ⟨hq', hon', hsy', _⟩ := ih hk'
      have hlt : ({ op with retryCount := k } : QueuedOperation).retryCount <
          ({ op with retryCount := k } : QueuedOperation).maxRetries := by
        simpa using Nat.lt_of_succ_le hk
      have hfail' :
          replayOk (processOperation (envs k) { op with retryCount := k }) = false := by
        rw [processOperation_retryCount]; exact hfail k
      have hpass := performSync_single_fail_keep (envs k)
        { op with retryCount := k } (runPasses envs now k s) now
        hon' hsy' hq' hfail' hlt
      have hstep : runPasses envs now (k + 1) s =
          passState (envs k) [] now (runPasses envs now k s) := rfl
      rw [hstep, passState, hpass]
      exact ⟨by simp, hon', rfl, by simp⟩

/-- Eviction of a single operation whose replay fails on every attempt:
after `maxRetries + 1` passes it is gone from the queue and `syncErrors`
holds exactly its one eviction message. -/
theorem runPasses_fail_evicts (envs : Nat → String → Bool)
    (op : QueuedOperation) (s : OfflineState) (now : Nat)
    (hon : s.isOnline = true) (hsy : s.isSyncing = false)
    (hq : s.syncQueue = [op]) (h0 : op.retryCount = 0)
    (hfail : ∀ k, replayOk (processOperation (envs k) op) = false) :
    (runPasses envs now (op.maxRetries + 1) s).syncQueue = [] ∧
    (runPasses envs now (op.maxRetries + 1) s).syncErrors = [failMsg op] := by
  obtain ⟨hq', hon', hsy', _⟩ :=
    runPasses_fail_progress envs op s now hon hsy hq h0 hfail
      op.maxRetries (Nat.le_refl _)
  have hfail' : replayOk (processOperation (envs op.maxRetries)
      { op with retryCount := op.maxRetries }) = false := by
    rw [processOperation_retryCount]; exact hfail op.maxRetries
  have hge : ({ op with retryCount := op.maxRetries } : QueuedOperation).maxRetries ≤
      ({ op with retryCount := op.maxRetries } : QueuedOperation).retryCount :=
    Nat.le_refl _
  have hpass := performSync_single_fail_evict (envs op.maxRetries)
    { op with retryCount := op.maxRetries } (runPasses envs now op.maxRetries s)
    now hon' hsy' hq' hfail' hge
  have hstep : runPasses envs now (op.maxRetries + 1) s =
      passState (envs op.maxRetries) [] now (runPasses envs now op.maxRetries s) := rfl
  rw [hstep, passState, hpass]
  exact ⟨rfl, by rw [failMsg_retryCount]⟩

/-! ## Queue-id lemmas -/

theorem queueIds_removeFromQueue (i : Nat) (s : OfflineState) :
    queueIds (removeFromQueue i s) =
      (queueIds s).filter (fun x => x != i) := by
  unfold queueIds removeFromQueue
  induction s.syncQueue with
  | nil => rfl
  | cons op rest ih =>
      by_cases h : op.id = i
      · simp only [List.filter_cons, List.map_cons, h]
        simpa using ih
      · simp only [List.filter_cons, List.map_cons]
        have hb : (op.id != i) = true := by simpa using h
        simp [hb, ih]

theorem queueIds_incrementRetryCount (i : Nat) (s : OfflineState) :
    queueIds (incrementRetryCount i s) = queueIds s := by
  unfold queueIds incrementRetryCount
  simp only [List.map_map]
  apply List.map_congr_left
  intro op _
  by_cases h : op.id = i <;> simp [h]

theorem queueIds_addToQueue (entity ty : String) (data : OpData)
    (maxRetries now : Nat) (s : OfflineState) :
    queueIds (addToQueue entity ty data maxRetries now s) =
      queueIds s ++ [s.nextId] := by
  simp [queueIds, addToQueue]

theorem nextId_addToQueue (entity ty : String) (data : OpData)
    (maxRetries now : Nat) (s : OfflineState) :
    (addToQueue entity ty data maxRetries now s).nextId = s.nextId + 1 :=
  rfl

theorem queueIds_addSyncError (e : String) (s : OfflineState) :
    queueIds (addSyncError e s) = queueIds s :=
  rfl

theorem queueIds_syncStep (env : String → Bool) (op : QueuedOperation)
    (s : OfflineState) :
    queueIds (syncStep env op s).1 =
      if evicts env op then (queueIds s).filter (fun x => x != op.id)
      else queueIds s := by
  unfold syncStep evicts
  cases hres : (processOperation env op).result with
  | ok u =>
      simp [hres, replayOk, queueIds_removeFromQueue]
  | error m =>
      by_cases hge : op.maxRetries ≤ op.retryCount
      · have h1 : queueIds (addSyncError (failMsg op)
            (removeFromQueue op.id (incrementRetryCount op.id s))) =
            (queueIds s).filter (fun x => x != op.id) := by
          rw [queueIds_addSyncError, queueIds_removeFromQueue,
            queueIds_incrementRetryCount]
        simp [hres, replayOk, hge, h1]
      · simp [hres, replayOk, hge, queueIds_incrementRetryCount]

theorem nextId_syncStep (env : String → Bool) (op : QueuedOperation)
    (s : OfflineState) :
    (syncStep env op s).1.nextId = s.nextId := by
  unfold syncStep
  cases hres : (processOperation env op).result with
  | ok u => simp [hres, removeFromQueue]
  | error m =>
      by_cases hge : op.maxRetries ≤ op.retryCount <;>
        simp [hres, hge, removeFromQueue, incrementRetryCount, addSyncError]

/-- The loop attempts exactly the snapshot's operations, in order. -/
theorem syncLoop_attempted (env : String → Bool) (ops : List QueuedOperation)
    (mids : List (List EnqueueReq)) (s : OfflineState) :
    (syncLoop env ops mids s).2.2 = ops.map (fun op => op.id) := by
  induction ops generalizing mids s with
  | nil => rfl
  | cons op rest ih => simp [syncLoop, ih]

/-- Queue ids across a loop with no concurrent enqueues. -/
theorem queueIds_syncLoop (env : String → Bool) (ops : List QueuedOperation)
    (s : OfflineState) :
    queueIds (syncLoop env ops [] s).1 =
      ops.foldl
        (fun ids op =>
          if evicts env op then ids.filter (fun x => x != op.id) else ids)
        (queueIds s) := by
  induction ops generalizing s with
  | nil => rfl
  | cons op rest ih =>
      simp only [syncLoop, List.headD, List.tail, applyReqs, List.foldl_nil,
        List.foldl_cons]
      rw [ih, queueIds_syncStep]

/-- Membership in the queue-id fold: an id survives the pass exactly
when it was present and no snapshot operation with that id was
evicted. -/
theorem mem_foldl_evicts (env : String → Bool) (ops : List QueuedOperation)
    (ids : List Nat) (x : Nat) :
    (x ∈ ops.foldl
        (fun ids op =>
          if evicts env op then ids.filter (fun y => y != op.id) else ids)
        ids) ↔
      x ∈ ids ∧ ∀ op ∈ ops, op.id = x → evicts env op = false := by
  induction ops generalizing ids with
  | nil => simp
  | cons op rest ih =>
      simp only [List.foldl_cons]
      rw [ih]
      by_cases hev : evicts env op
      · simp only [hev, if_pos, List.mem_filter, bne_iff_ne, ne_eq]
        constructor
        · rintro ⟨⟨hmem, hne⟩, hrest⟩
          refine ⟨hmem, ?_⟩
          intro op' hop' hid
          rcases List.mem_cons.mp hop' with rfl | hop'
          · exact absurd hid.symm (by simpa using hne)
          · exact hrest op' hop' hid
        · rintro ⟨hmem, hall⟩
          refine ⟨⟨hmem, ?_⟩, ?_⟩
          · intro hEq
            have hc := hall op (List.mem_cons_self op rest) hEq.symm
            rw [hc] at hev
            exact Bool.false_ne_true hev
          · intro op' hop' hid
            exact hall op' (List.mem_cons_of_mem op hop') hid
      · simp only [hev, if_neg, Bool.not_eq_true]
        constructor
        · rintro ⟨hmem, hrest⟩
          refine ⟨hmem, ?_⟩
          intro op' hop' hid
          rcases List.mem_cons.mp hop' with rfl | hop'
          · simp at hev
            exact hev
          · exact hrest op' hop' hid
        · rintro ⟨hmem, hall⟩
          exact ⟨hmem, fun op' hop' hid =>
            hall op' (List.mem_cons_of_mem op hop') hid⟩

/-! ## Freshness and invariant preservation -/

theorem nextId_le_applyReqs (reqs : List EnqueueReq) (s : OfflineState) :
    s.nextId ≤ (applyReqs reqs s).nextId := by
  induction reqs generalizing s with
  | nil => exact Nat.le_refl _
  | cons r rest ih =>
      have h1 : s.nextId ≤
          (addToQueue r.entity r.type r.data r.maxRetries r.now s).nextId := by
        rw [nextId_addToQueue]; exact Nat.le_succ _
      exact Nat.le_trans h1 (ih _)

theorem mem_queueIds_applyReqs (reqs : List EnqueueReq) (s : OfflineState)
    (x : Nat) (hx : x ∈ queueIds (applyReqs reqs s)) :
    x ∈ queueIds s ∨ s.nextId ≤ x := by
  induction reqs generalizing s with
  | nil => exact Or.inl hx
  | cons r rest ih =>
      rcases ih _ hx with h | h
      · rw [queueIds_addToQueue] at h
        rcases List.mem_append.mp h with h | h
        · exact Or.inl h
        · right
          simp only [List.mem_singleton] at h
          exact Nat.le_of_eq h.symm
      · rw [nextId_addToQueue] at h
        exact Or.inr (Nat.le_trans (Nat.le_succ _) h)

theorem mem_queueIds_syncStep (env : String → Bool) (op : QueuedOperation)
    (s : OfflineState) (x : Nat)
    (hx : x ∈ queueIds (syncStep env op s).1) : x ∈ queueIds s := by
  rw [queueIds_syncStep] at hx
  by_cases hev : evicts env op
  · rw [if_pos hev] at hx
    exact (List.mem_filter.mp hx).1
  · rwa [if_neg hev] at hx

theorem nextId_le_syncLoop (env : String → Bool) (ops : List QueuedOperation)
    (mids : List (List EnqueueReq)) (s : OfflineState) :
    s.nextId ≤ (syncLoop env ops mids s).1.nextId := by
  induction ops generalizing mids s with
  | nil => exact Nat.le_refl _
  | cons op rest ih =>
      simp only [syncLoop]
      have h1 := nextId_le_applyReqs (mids.headD []) s
      have h2 : (applyReqs (mids.headD []) s).nextId =
          (syncStep env op (applyReqs (mids.headD []) s)).1.nextId :=
        (nextId_syncStep _ _ _).symm
      exact Nat.le_trans (Nat.le_trans h1 (Nat.le_of_eq h2)) (ih _ _)

theorem mem_queueIds_syncLoop (env : String → Bool)
    (ops : List QueuedOperation) (mids : List (List EnqueueReq))
    (s : OfflineState) (x : Nat)
    (hx : x ∈ queueIds (syncLoop env ops mids s).1) :
    x ∈ queueIds s ∨ s.nextId ≤ x := by
  induction ops generalizing mids s with
  | nil => exact Or.inl hx
  | cons op rest ih =>
      simp only [syncLoop] at hx
      rcases ih _ _ hx with h | h
      · have h2 := mem_queueIds_syncStep env op _ _ h
        rcases mem_queueIds_applyReqs _ _ _ h2 with h3 | h3
        · exact Or.inl h3
        · exact Or.inr h3
      · rw [nextId_syncStep] at h
        exact Or.inr (Nat.le_trans (nextId_le_applyReqs _ _) h)

theorem queueIds_clearSyncErrors (s : OfflineState) :
    queueIds (clearSyncErrors s) = queueIds s :=
  rfl

theorem queueIds_setSyncing (b : Bool) (now : Nat) (s : OfflineState) :
    queueIds (setSyncing b now s) = queueIds s :=
  rfl

/-- The shape of a pass when the guard lets it run: snapshot the queue,
run the loop from the syncing state, and clear the syncing flag. -/
theorem performSync_guard_false (env : String → Bool)
    (mids : List (List EnqueueReq)) (now : Nat) (s : OfflineState)
    (hg : (!s.isOnline || s.isSyncing || s.syncQueue.isEmpty) = false) :
    performSync env mids now s =
      ⟨setSyncing false now
          (syncLoop env s.syncQueue mids (clearSyncErrors (setSyncing true now s))).1,
        (syncLoop env s.syncQueue mids (clearSyncErrors (setSyncing true now s))).2.1,
        (syncLoop env s.syncQueue mids (clearSyncErrors (setSyncing true now s))).2.2⟩ := by
  unfold performSync
  rw [if_neg (by rw [hg]; exact Bool.false_ne_true)]
  show (match syncLoop env s.syncQueue mids (clearSyncErrors (setSyncing true now s)) with
    | (s2, calls, att) => PassResult.mk (setSyncing false now s2) calls att) = _
  rcases hsl : syncLoop env s.syncQueue mids (clearSyncErrors (setSyncing true now s))
    with ⟨s2, calls, att⟩
  rfl

theorem mem_queueIds_performSync (env : String → Bool)
    (mids : List (List EnqueueReq)) (now : Nat) (s : OfflineState) (x : Nat)
    (hx : x ∈ queueIds (performSync env mids now s).state) :
    x ∈ queueIds s ∨ s.nextId ≤ x := by
  by_cases hg : (!s.isOnline || s.isSyncing || s.syncQueue.isEmpty) = true
  · unfold performSync at hx
    rw [if_pos hg] at hx
    exact Or.inl hx
  · rw [performSync_guard_false env mids now s (Bool.not_eq_true _ ▸ hg)] at hx
    have hx' : x ∈ queueIds
        (syncLoop env s.syncQueue mids (clearSyncErrors (setSyncing true now s))).1 := hx
    exact mem_queueIds_syncLoop env s.syncQueue mids
      (clearSyncErrors (setSyncing true now s)) x hx'

theorem nextId_le_performSync (env : String → Bool)
    (mids : List (List EnqueueReq)) (now : Nat) (s : OfflineState) :
    s.nextId ≤ (performSync env mids now s).state.nextId := by
  by_cases hg : (!s.isOnline || s.isSyncing || s.syncQueue.isEmpty) = true
  · unfold performSync
    rw [if_pos hg]
  · rw [performSync_guard_false env mids now s (Bool.not_eq_true _ ▸ hg)]
    show s.nextId ≤
      (syncLoop env s.syncQueue mids (clearSyncErrors (setSyncing true now s))).1.nextId
    exact nextId_le_syncLoop env s.syncQueue mids (clearSyncErrors (setSyncing true now s))

theorem storeInv_addToQueue (entity ty : String) (data : OpData)
    (maxRetries now : Nat) (s : OfflineState) (h : StoreInv s) :
    StoreInv (addToQueue entity ty data maxRetries now s) := by
  obtain ⟨hb, hnd⟩ := h
  constructor
  · intro x hx
    rw [queueIds_addToQueue] at hx
    rw [nextId_addToQueue]
    rcases List.mem_append.mp hx with h | h
    · exact Nat.lt_trans (hb x h) (Nat.lt_succ_self _)
    · simp only [List.mem_singleton] at h
      rw [h]
      exact Nat.lt_succ_self _
  · rw [queueIds_addToQueue]
    rw [List.nodup_append]
    refine ⟨hnd, List.nodup_singleton _, ?_⟩
    intro x hx hx'
    simp only [List.mem_singleton] at hx'
    exact absurd (hb x hx) (by rw [hx']; exact Nat.lt_irrefl _)

theorem storeInv_applyReqs (reqs : List EnqueueReq) (s : OfflineState)
    (h : StoreInv s) : StoreInv (applyReqs reqs s) := by
  induction reqs generalizing s with
  | nil => exact h
  | cons r rest ih => exact ih _ (storeInv_addToQueue _ _ _ _ _ _ h)

theorem storeInv_syncStep (env : String → Bool) (op : QueuedOperation)
    (s : OfflineState) (h : StoreInv s) : StoreInv (syncStep env op s).1 := by
  obtain ⟨hb, hnd⟩ := h
  constructor
  · intro x hx
    rw [nextId_syncStep]
    exact hb x (mem_queueIds_syncStep env op s x hx)
  · rw [queueIds_syncStep]
    by_cases hev : evicts env op
    · rw [if_pos hev]
      exact hnd.filter _
    · rwa [if_neg hev]

theorem storeInv_syncLoop (env : String → Bool) (ops : List QueuedOperation)
    (mids : List (List EnqueueReq)) (s : OfflineState) (h : StoreInv s) :
    StoreInv (syncLoop env ops mids s).1 := by
  induction ops generalizing mids s with
  | nil => exact h
  | cons op rest ih =>
      simp only [syncLoop]
      exact ih _ _ (storeInv_syncStep env op _ (storeInv_applyReqs _ _ h))

theorem storeInv_performSync (env : String → Bool)
    (mids : List (List EnqueueReq)) (now : Nat) (s : OfflineState)
    (h : StoreInv s) : StoreInv (performSync env mids now s).state := by
  by_cases hg : (!s.isOnline || s.isSyncing || s.syncQueue.isEmpty) = true
  · unfold performSync
    rwa [if_pos hg]
  · rw [performSync_guard_false env mids now s (Bool.not_eq_true _ ▸ hg)]
    show StoreInv
      (syncLoop env s.syncQueue mids (clearSyncErrors (setSyncing true now s))).1
    exact storeInv_syncLoop env s.syncQueue mids
      (clearSyncErrors (setSyncing true now s)) h

theorem storeInv_stepAct (a : Act) (s : OfflineState) (h : StoreInv s) :
    StoreInv (stepAct a s) := by
  cases a with
  | enqueueAct operationType endpoint method payload now =>
      exact storeInv_addToQueue _ _ _ _ _ _ h
  | queueOpAct entity ty data maxRetries now =>
      exact storeInv_addToQueue _ _ _ _ _ _ h
  | passAct env mids now => exact storeInv_performSync env mids now s h
  | setOnlineAct b => exact h
  | clearErrorsAct => exact h

theorem mem_queueIds_stepAct (a : Act) (s : OfflineState) (x : Nat)
    (hx : x ∈ queueIds (stepAct a s)) : x ∈ queueIds s ∨ s.nextId ≤ x := by
  cases a with
  | enqueueAct operationType endpoint method payload now =>
      unfold stepAct addToSyncQueue at hx
      rw [queueIds_addToQueue] at hx
      rcases List.mem_append.mp hx with h | h
      · exact Or.inl h
      · simp only [List.mem_singleton] at h
        exact Or.inr (Nat.le_of_eq h.symm)
  | queueOpAct entity ty data maxRetries now =>
      unfold stepAct at hx
      rw [queueIds_addToQueue] at hx
      rcases List.mem_append.mp hx with h | h
      · exact Or.inl h
      · simp only [List.mem_singleton] at h
        exact Or.inr (Nat.le_of_eq h.symm)
  | passAct env mids now => exact mem_queueIds_performSync env mids now s x hx
  | setOnlineAct b => exact Or.inl hx
  | clearErrorsAct => exact Or.inl hx

theorem nextId_le_stepAct (a : Act) (s : OfflineState) :
    s.nextId ≤ (stepAct a s).nextId := by
  cases a with
  | enqueueAct operationType endpoint method payload now => exact Nat.le_succ _
  | queueOpAct entity ty data maxRetries now => exact Nat.le_succ _
  | passAct env mids now => exact nextId_le_performSync env mids now s
  | setOnlineAct b => exact Nat.le_refl _
  | clearErrorsAct => exact Nat.le_refl _

/-- Once an id is out of the queue and below the fresh-id counter, no
sequence of engine actions can ever bring it back. -/
theorem removed_id_never_returns (acts : List Act) (s : OfflineState)
    (x : Nat) (hlt : x < s.nextId) (hout : x ∉ queueIds s) :
    x ∉ queueIds (runActs acts s) := by
  induction acts generalizing s with
  | nil => exact hout
  | cons a rest ih =>
      have hstep : runActs (a :: rest) s = runActs rest (stepAct a s) := rfl
      rw [hstep]
      apply ih
      · exact Nat.lt_of_lt_of_le hlt (nextId_le_stepAct a s)
      · intro hmem
        rcases mem_queueIds_stepAct a s x hmem with h | h
        · exact hout h
        · exact absurd hlt (Nat.not_lt.mpr h)

/-- Boolean characterization of `evicts`. -/
theorem evicts_eq_true_iff (env : String → Bool) (op : QueuedOperation) :
    evicts env op = true ↔
      (replayOk (processOperation env op) = true ∨
        op.maxRetries ≤ op.retryCount) := by
  simp [evicts]

/-- When the guard lets a pass run, the attempted operations are exactly
the queue snapshot's ids, in order. -/
theorem performSync_attempted (env : String → Bool)
    (mids : List (List EnqueueReq)) (now : Nat) (s : OfflineState)
    (hg : (!s.isOnline || s.isSyncing || s.syncQueue.isEmpty) = false) :
    (performSync env mids now s).attempted = queueIds s := by
  rw [performSync_guard_false env mids now s hg]
  show (syncLoop env s.syncQueue mids
    (clearSyncErrors (setSyncing true now s))).2.2 = _
  rw [syncLoop_attempted]
  rfl

/-- During a pass (no concurrent enqueues), a queued operation leaves
the queue exactly when its replay succeeded or its snapshot retry
counter had already reached `maxRetries`. -/
theorem performSync_removes_iff (env : String → Bool) (now : Nat)
    (s : OfflineState) (op : QueuedOperation)
    (hmem : op ∈ s.syncQueue)
    (hon : s.isOnline = true) (hsy : s.isSyncing = false)
    (hnd : (queueIds s).Nodup) :
    op.id ∉ queueIds (performSync env [] now s).state ↔
      (replayOk (processOperation env op) = true ∨
        op.maxRetries ≤ op.retryCount) := by
  have hne : s.syncQueue.isEmpty = false := by
    cases hq : s.syncQueue with
    | nil => rw [hq] at hmem; cases hmem
    | cons a l => rfl
  have hg : (!s.isOnline || s.isSyncing || s.syncQueue.isEmpty) = false := by
    rw [hon, hsy, hne]; rfl
  rw [performSync_guard_false env [] now s hg]
  show op.id ∉ queueIds (syncLoop env s.syncQueue []
    (clearSyncErrors (setSyncing true now s))).1 ↔ _
  rw [queueIds_syncLoop]
  have hbase : queueIds (clearSyncErrors (setSyncing true now s)) = queueIds s :=
    rfl
  rw [hbase]
  have hin : op.id ∈ queueIds s := List.mem_map.mpr ⟨op, hmem, rfl⟩
  have hnd' : (s.syncQueue.map (fun op => op.id)).Nodup := hnd
  have hinj := List.inj_on_of_nodup_map hnd'
  have hforall :
      (∀ op' ∈ s.syncQueue, op'.id = op.id → evicts env op' = false) ↔
        evicts env op = false := by
    constructor
    · intro h
      exact h op hmem rfl
    · intro h op' hop' hid
      have heq : op' = op := hinj hop' hmem hid
      rw [heq]
      exact h
  constructor
  · intro h
    rcases Bool.eq_false_or_eq_true (evicts env op) with ht | hf
    · exact (evicts_eq_true_iff env op).mp ht
    · exact absurd ((mem_foldl_evicts env s.syncQueue (queueIds s) op.id).mpr
        ⟨hin, hforall.mpr hf⟩) h
  · intro h hcon
    have hf := hforall.mp ((mem_foldl_evicts env s.syncQueue
      (queueIds s) op.id).mp hcon).2
    rw [(evicts_eq_true_iff env op).mpr h] at hf
    exact Bool.noConfusion hf

/-- The pass guard evaluates to false when online, idle and the queue
is non-empty. -/
theorem guard_eq_false (s : OfflineState) (hon : s.isOnline = true)
    (hsy : s.isSyncing = false) (hne : s.syncQueue ≠ []) :
    (!s.isOnline || s.isSyncing || s.syncQueue.isEmpty) = false := by
  rw [hon, hsy]
  cases hq : s.syncQueue with
  | nil => exact absurd hq hne
  | cons a l => rfl

/-- When the guard trips, the pass is a pure no-op. -/
theorem performSync_guard_true (env : String → Bool)
    (mids : List (List EnqueueReq)) (now : Nat) (s : OfflineState)
    (hg : (!s.isOnline || s.isSyncing || s.syncQueue.isEmpty) = true) :
    performSync env mids now s = ⟨s, [], []⟩ := by
  unfold performSync
  rw [if_pos hg]

/-! ## Claims -/

/-- **C1, counterexample.** `exFailingOp` has `maxRetries = 3` and its
replay fails on every attempt under the all-failing environment, yet
after 3 consecutive failed replay attempts (3 passes) it is still in
the queue — now with stored `retryCount = 3 = maxRetries` — and
`syncErrors` is empty.  So it is not evicted after exactly
`maxRetries` failed attempts, contrary to the claim. -/
theorem c1_retry_ceiling_counterexample :
    replayOk (processOperation (fun _ => false) exFailingOp) = false ∧
    (runPasses (fun _ _ => false) 0 3 (singleOpState exFailingOp)).syncQueue =
      [{ exFailingOp with retryCount := 3 }] ∧
    (runPasses (fun _ _ => false) 0 3 (singleOpState exFailingOp)).syncErrors =
      [] := by
  exact ⟨rfl, rfl, rfl⟩

/-- **C1** (amended).  For every queued operation with `maxRetries = N`
whose replay fails on every attempt, starting from a queue holding just
that operation: after each of the first `N` failed attempts the
operation is still queued (with `retryCount` equal to the number of
failures so far) and no sync error has been recorded; the eviction
happens on the `(N+1)`-th failed attempt, whose increment first raises
the stored `retryCount` to `N + 1` (one past `maxRetries`) before the
removal; at the eviction `syncErrors` gains exactly one entry (it holds
exactly the one eviction message at the end of that pass).  The
off-by-one arises because the eviction test compares the pass-start
snapshot's `retryCount` with `maxRetries`. -/
theorem c1_retry_ceiling (envs : Nat → String → Bool) (op : QueuedOperation)
    (s : OfflineState) (now : Nat)
    (hon : s.isOnline = true) (hsy : s.isSyncing = false)
    (hq : s.syncQueue = [op]) (h0 : op.retryCount = 0)
    (hfail : ∀ k, replayOk (processOperation (envs k) op) = false) :
    (∀ k, k ≤ op.maxRetries →
        (runPasses envs now k s).syncQueue = [{ op with retryCount := k }] ∧
        (runPasses envs now k s).syncErrors =
          (if k = 0 then s.syncErrors else [])) ∧
    (incrementRetryCount op.id (runPasses envs now op.maxRetries s)).syncQueue =
      [{ op with retryCount := op.maxRetries + 1 }] ∧
    (runPasses envs now (op.maxRetries + 1) s).syncQueue = [] ∧
    (runPasses envs now (op.maxRetries + 1) s).syncErrors = [failMsg op] := by
  have hprog := runPasses_fail_progress envs op s now hon hsy hq h0 hfail
  have hev := runPasses_fail_evicts envs op s now hon hsy hq h0 hfail
  refine ⟨fun k hk => ⟨(hprog k hk).1, (hprog k hk).2.2.2⟩, ?_, hev.1, hev.2⟩
  have hqN := (hprog op.maxRetries (Nat.le_refl _)).1
  simp [incrementRetryCount, hqN]

/-- Witness for the amended C1 at `exFailingOp` (`maxRetries = 3`):
evicted on pass 4 with exactly one sync error. -/
theorem c1_retry_ceiling_witness :
    (runPasses (fun _ _ => false) 0 (exFailingOp.maxRetries + 1)
        (singleOpState exFailingOp)).syncQueue = [] ∧
    (runPasses (fun _ _ => false) 0 (exFailingOp.maxRetries + 1)
        (singleOpState exFailingOp)).syncErrors = [failMsg exFailingOp] := by
  have h := c1_retry_ceiling (fun _ _ => false) exFailingOp
    (singleOpState exFailingOp) 0 rfl rfl rfl rfl (fun _ => rfl)
  exact ⟨h.2.2.1, h.2.2.2⟩

/-- **C10.**  A queued operation with entity `movement` (a member of
the declared entity union) throws `Unknown entity type: movement` on
every replay attempt without issuing any remote call, so it can never
sync: starting from a queue holding just that operation it survives the
first `maxRetries` failing passes, and the `(maxRetries + 1)`-th pass
evicts it and appends exactly one entry to `syncErrors`. -/
theorem c10_movement_never_syncs (envs : Nat → String → Bool)
    (op : QueuedOperation) (s : OfflineState) (now : Nat)
    (hent : op.entity = "movement")
    (hon : s.isOnline = true) (hsy : s.isSyncing = false)
    (hq : s.syncQueue = [op]) (h0 : op.retryCount = 0) :
    (∀ env : String → Bool, processOperation env op =
        ⟨Except.error "Unknown entity type: movement", []⟩) ∧
    (∀ k, k ≤ op.maxRetries →
        (runPasses envs now k s).syncQueue = [{ op with retryCount := k }]) ∧
    (runPasses envs now (op.maxRetries + 1) s).syncQueue = [] ∧
    (runPasses envs now (op.maxRetries + 1) s).syncErrors = [failMsg op] := by
  have hthrow : ∀ env : String → Bool, processOperation env op =
      ⟨Except.error "Unknown entity type: movement", []⟩ := by
    intro env
    unfold processOperation
    rw [hent]
    rfl
  have hfail : ∀ k, replayOk (processOperation (envs k) op) = false := by
    intro k
    rw [hthrow (envs k)]
    rfl
  have hprog := runPasses_fail_progress envs op s now hon hsy hq h0 hfail
  have hev := runPasses_fail_evicts envs op s now hon hsy hq h0 hfail
  exact ⟨hthrow, fun k hk => (hprog k hk).1, hev.1, hev.2⟩

/-- Witness for C10 at `exMovementOp` under an all-succeeding remote
environment: the replay still throws, and the operation is evicted on
pass `maxRetries + 1` with one sync error. -/
theorem c10_movement_never_syncs_witness :
    processOperation (fun _ => true) exMovementOp =
      ⟨Except.error "Unknown entity type: movement", []⟩ ∧
    (runPasses (fun _ _ => true) 0 (exMovementOp.maxRetries + 1)
        (singleOpState exMovementOp)).syncQueue = [] ∧
    (runPasses (fun _ _ => true) 0 (exMovementOp.maxRetries + 1)
        (singleOpState exMovementOp)).syncErrors = [failMsg exMovementOp] := by
  have h := c10_movement_never_syncs (fun _ _ => true) exMovementOp
    (singleOpState exMovementOp) 0 rfl rfl rfl rfl rfl
  exact ⟨h.1 (fun _ => true), h.2.2.1, h.2.2.2⟩

/-- **C5.**  (i) During a reconciliation pass (pairwise-distinct queued
ids), a queued operation leaves the queue if and only if its replay
succeeded or its retries were exhausted (its snapshot `retryCount` had
reached `maxRetries`); (ii) every engine action preserves the store
invariant; (iii) once an id is out of the queue (and below the fresh-id
counter), no sequence of engine actions — later passes included — ever
brings it back.  `clearQueue` exists in the store but has no caller in
the repository, so it is not an engine action. -/
theorem c5_removal_iff_and_permanence (env : String → Bool) (now : Nat)
    (s : OfflineState) (op : QueuedOperation) :
    (op ∈ s.syncQueue → s.isOnline = true → s.isSyncing = false →
      (queueIds s).Nodup →
      (op.id ∉ queueIds (performSync env [] now s).state ↔
        (replayOk (processOperation env op) = true ∨
          op.maxRetries ≤ op.retryCount))) ∧
    (∀ (a : Act) (s' : OfflineState), StoreInv s' → StoreInv (stepAct a s')) ∧
    (∀ (acts : List Act) (s' : OfflineState) (x : Nat),
      x < s'.nextId → x ∉ queueIds s' → x ∉ queueIds (runActs acts s')) :=
  ⟨fun hmem hon hsy hnd => performSync_removes_iff env now s op hmem hon hsy hnd,
   storeInv_stepAct, removed_id_never_returns⟩

/-- Witness for C5: a successful replay removes `exCreateOp`; the
invariant survives an enqueue on the empty store; id `0` (not queued,
below the counter) stays out across a pass. -/
theorem c5_removal_iff_and_permanence_witness :
    (exCreateOp.id ∉
        queueIds (performSync (fun _ => true) [] 0
          (singleOpState exCreateOp)).state ↔
      (replayOk (processOperation (fun _ => true) exCreateOp) = true ∨
        exCreateOp.maxRetries ≤ exCreateOp.retryCount)) ∧
    StoreInv (stepAct
      (Act.queueOpAct "product" "CREATE" ⟨"/inventory/products", "POST", 0⟩ 5 0)
      emptyState) ∧
    0 ∉ queueIds (runActs [Act.passAct (fun _ => true) [] 0]
      (singleOpState exCreateOp)) := by
  have h := c5_removal_iff_and_permanence (fun _ => true) 0
    (singleOpState exCreateOp) exCreateOp
  exact ⟨h.1 (by decide) rfl rfl (by decide),
    h.2.1 _ _ ⟨by decide, by decide⟩,
    h.2.2 _ _ 0 (by decide) (by decide)⟩

/-- **C6.**  (i) A pass that runs attempts exactly the ids of the queue
snapshot taken at its start, in queue (FIFO) order — so of two queued
operations, the earlier-enqueued one is attempted first; (ii) every
attempted id predates the pass (is below the pass-start fresh-id
counter); (iii) anything in the queue after the pass either was in the
start snapshot or carries a fresh id (`≥` the counter), i.e. was
enqueued during the pass — combined with (ii), operations enqueued
during a pass are not attempted in it; (iv) enqueueing appends at the
tail, so queue order is enqueue order. -/
theorem c6_snapshot_fifo (env : String → Bool)
    (mids : List (List EnqueueReq)) (now : Nat) (s : OfflineState) :
    (s.isOnline = true → s.isSyncing = false → s.syncQueue ≠ [] →
      (performSync env mids now s).attempted = queueIds s) ∧
    ((∀ x ∈ queueIds s, x < s.nextId) →
      ∀ x ∈ (performSync env mids now s).attempted, x < s.nextId) ∧
    (∀ x ∈ queueIds (performSync env mids now s).state,
      x ∈ queueIds s ∨ s.nextId ≤ x) ∧
    (∀ (entity ty : String) (d : OpData) (m n : Nat) (s' : OfflineState),
      queueIds (addToQueue entity ty d m n s') = queueIds s' ++ [s'.nextId]) := by
  refine ⟨?_, ?_, ?_, ?_⟩
  · intro hon hsy hne
    exact performSync_attempted env mids now s (guard_eq_false s hon hsy hne)
  · intro hb x hx
    by_cases hg : (!s.isOnline || s.isSyncing || s.syncQueue.isEmpty) = true
    · rw [performSync_guard_true env mids now s hg] at hx
      exact absurd hx (List.not_mem_nil x)
    · rw [performSync_attempted env mids now s (Bool.not_eq_true _ ▸ hg)] at hx
      exact hb x hx
  · intro x hx
    exact mem_queueIds_performSync env mids now s x hx
  · intro entity ty d m n s'
    exact queueIds_addToQueue entity ty d m n s'

/-- Witness for C6 at a one-element queue: the attempted list is the
snapshot's ids and each attempted id is below the pass-start counter. -/
theorem c6_snapshot_fifo_witness :
    (performSync (fun _ => true) [] 0 (singleOpState exCreateOp)).attempted =
      queueIds (singleOpState exCreateOp) ∧
    (∀ x ∈ (performSync (fun _ => true) [] 0
        (singleOpState exCreateOp)).attempted,
      x < (singleOpState exCreateOp).nextId) := by
  have h := c6_snapshot_fifo (fun _ => true) [] 0 (singleOpState exCreateOp)
  exact ⟨h.1 rfl rfl (by decide), h.2.1 (by decide)⟩

/-- **C7.**  A pass is a pure no-op — state unchanged, nothing
attempted, nothing queued or deferred — whenever a pass is already
running (`isSyncing`), the engine is offline, or the queue is empty;
`triggerSync` is the same call, so a manual trigger during a running
pass is the same no-op.  When online, idle and non-empty, the pass
runs: it attempts exactly the snapshot ids, and attempts at least
one operation. -/
theorem c7_pass_preconditions (env : String → Bool)
    (mids : List (List EnqueueReq)) (now : Nat) (s : OfflineState) :
    (s.isSyncing = true →
      performSync env mids now s = ⟨s, [], []⟩ ∧
      triggerSync env mids now s = ⟨s, [], []⟩) ∧
    (s.isOnline = false → performSync env mids now s = ⟨s, [], []⟩) ∧
    (s.syncQueue = [] → performSync env mids now s = ⟨s, [], []⟩) ∧
    (s.isOnline = true → s.isSyncing = false → s.syncQueue ≠ [] →
      (performSync env mids now s).attempted = queueIds s ∧
      (performSync env mids now s).attempted ≠ []) := by
  refine ⟨?_, ?_, ?_, ?_⟩
  · intro h
    have hg : (!s.isOnline || s.isSyncing || s.syncQueue.isEmpty) = true := by
      rw [h]; simp
    exact ⟨performSync_guard_true env mids now s hg,
      performSync_guard_true env mids now s hg⟩
  · intro h
    have hg : (!s.isOnline || s.isSyncing || s.syncQueue.isEmpty) = true := by
      rw [h]; simp
    exact performSync_guard_true env mids now s hg
  · intro h
    have hg : (!s.isOnline || s.isSyncing || s.syncQueue.isEmpty) = true := by
      rw [h]; simp
    exact performSync_guard_true env mids now s hg
  · intro hon hsy hne
    have ha := performSync_attempted env mids now s (guard_eq_false s hon hsy hne)
    refine ⟨ha, ?_⟩
    rw [ha]
    intro hc
    exact hne (by simpa [queueIds] using hc)

/-- Witness for C7: a trigger while a pass is running (the store's
`isSyncing` flag set) leaves the state untouched, and a runnable pass
attempts something. -/
theorem c7_pass_preconditions_witness :
    triggerSync (fun _ => true) [] 0
        (setSyncing true 0 (singleOpState exCreateOp)) =
      ⟨setSyncing true 0 (singleOpState exCreateOp), [], []⟩ ∧
    (performSync (fun _ => true) [] 0 (singleOpState exCreateOp)).attempted ≠
      [] := by
  have h1 := c7_pass_preconditions (fun _ => true) [] 0
    (setSyncing true 0 (singleOpState exCreateOp))
  have h2 := c7_pass_preconditions (fun _ => true) [] 0 (singleOpState exCreateOp)
  exact ⟨(h1.1 rfl).2, (h2.2.2.2 rfl rfl (by decide)).2⟩

/-- The composed classification: the API layer throws `NetworkError`
exactly for the transport failures the spec names (no response,
timeout `ECONNABORTED`, connection `ECONNREFUSED`, DNS `ENOTFOUND`). -/
theorem isNetworkError_handleError_iff (e : AxiosErr) :
    isNetworkError (handleError e) = true ↔ specTransportFailure e := by
  unfold handleError specTransportFailure
  by_cases hc : (e.code == some "ECONNREFUSED" || e.code == some "ENOTFOUND" ||
      e.code == some "ECONNABORTED" || e.responseStatus == none) = true
  · rw [if_pos hc]
    simp only [Bool.or_eq_true, beq_iff_eq] at hc
    simp only [isNetworkError]
    constructor
    · intro _
      tauto
    · intro _
      trivial
  · rw [if_neg hc]
    simp only [Bool.or_eq_true, beq_iff_eq, not_or] at hc
    simp only [isNetworkError]
    constructor
    · intro hfalse
      exact Bool.noConfusion hfalse
    · intro hspec
      exfalso
      tauto

/-- Classification of a received response never depends on its HTTP
status. -/
theorem handleError_status_independent (c : Option String) (st1 st2 : Nat) :
    isNetworkError (handleError ⟨c, some st1⟩) =
      isNetworkError (handleError ⟨c, some st2⟩) := by
  have h1 := isNetworkError_handleError_iff ⟨c, some st1⟩
  have h2 := isNetworkError_handleError_iff ⟨c, some st2⟩
  have hs : specTransportFailure ⟨c, some st1⟩ ↔
      specTransportFailure ⟨c, some st2⟩ := by
    unfold specTransportFailure
    simp
  by_cases hsp : specTransportFailure ⟨c, some st2⟩
  · rw [h1.mpr (hs.mpr hsp), h2.mpr hsp]
  · have hb1 : isNetworkError (handleError ⟨c, some st1⟩) = false :=
      Bool.not_eq_true _ ▸ (fun hb => hsp (hs.mp (h1.mp hb)))
    have hb2 : isNetworkError (handleError ⟨c, some st2⟩) = false :=
      Bool.not_eq_true _ ▸ (fun hb => hsp (h2.mp hb))
    rw [hb1, hb2]

/-- **C3.**  (i) The classification predicate holds exactly for
transport failures: no response received, timeout (`ECONNABORTED`),
connection refused (`ECONNREFUSED`) or DNS failure (`ENOTFOUND`);
(ii) for a received response it never depends on the HTTP status;
(iii) the same single predicate `isNetworkError` decides the local
fallback in all four router operations: when online and the remote
call throws `t`, each operation falls back locally (and each mutation
enqueues) iff `isNetworkError t`, and surfaces `t` unchanged iff
`¬ isNetworkError t`. -/
theorem c3_network_classification :
    (∀ e : AxiosErr,
      isNetworkError (handleError e) = true ↔ specTransportFailure e) ∧
    (∀ (c : Option String) (st1 st2 : Nat),
      isNetworkError (handleError ⟨c, some st1⟩) =
        isNetworkError (handleError ⟨c, some st2⟩)) ∧
    (∀ (lex : LocalExec) (nav : Bool) (probe : ProbeResult) (t : ThrownError)
        (endpoint cmd opType : String) (d args now : Nat) (st : EngineState),
      isOnlineCheck nav probe = true →
      (((routerGet lex nav probe (Except.error t) endpoint cmd args st).result =
          Except.error t) ↔ isNetworkError t = false) ∧
      ((Ev.localInvoke cmd ∈
          (routerGet lex nav probe (Except.error t) endpoint cmd args st).events) ↔
        isNetworkError t = true) ∧
      (((routerCreate lex nav probe (Except.error t) endpoint d cmd opType now
          st).result = Except.error t) ↔ isNetworkError t = false) ∧
      ((Ev.enqueue opType ∈
          (routerCreate lex nav probe (Except.error t) endpoint d cmd opType now
            st).events) ↔ isNetworkError t = true) ∧
      (((routerUpdate lex nav probe (Except.error t) endpoint d cmd args opType
          now st).result = Except.error t) ↔ isNetworkError t = false) ∧
      ((Ev.enqueue opType ∈
          (routerUpdate lex nav probe (Except.error t) endpoint d cmd args opType
            now st).events) ↔ isNetworkError t = true) ∧
      (((routerDelete lex nav probe (Except.error t) endpoint cmd args opType
          now st).result = Except.error t) ↔ isNetworkError t = false) ∧
      ((Ev.enqueue opType ∈
          (routerDelete lex nav probe (Except.error t) endpoint cmd args opType
            now st).events) ↔ isNetworkError t = true)) := by
  refine ⟨isNetworkError_handleError_iff, handleError_status_independent, ?_⟩
  intro lex nav probe t endpoint cmd opType d args now st hon
  by_cases hnet : isNetworkError t = true
  · simp [routerGet, routerCreate, routerUpdate, routerDelete,
      createOfflineAndQueue, updateOfflineAndQueue, deleteOfflineAndQueue,
      hon, hnet]
  · have hnet' : isNetworkError t = false := Bool.not_eq_true _ ▸ hnet
    simp [routerGet, routerCreate, routerUpdate, routerDelete,
      hon, hnet']

/-- Witness for C3's router-uniformity part: online with an `ApiError`
of status 403, the create router surfaces the error and does not
enqueue; the classification facts at two concrete errors. -/
theorem c3_network_classification_witness :
    ((routerCreate exLex true (ProbeResult.response 200)
        (Except.error (ThrownError.api 403)) "/users" 7 "create_user"
        "user_create" 0 exEngineState).result =
          Except.error (ThrownError.api 403) ↔
      isNetworkError (ThrownError.api 403) = false) ∧
    ((Ev.enqueue "user_create" ∈
        (routerCreate exLex true (ProbeResult.response 200)
          (Except.error (ThrownError.api 403)) "/users" 7 "create_user"
          "user_create" 0 exEngineState).events) ↔
      isNetworkError (ThrownError.api 403) = true) := by
  have h := (c3_network_classification.2.2 exLex true (ProbeResult.response 200)
    (ThrownError.api 403) "/users" "create_user" "user_create" 7 0 0
    exEngineState rfl)
  exact ⟨h.2.2.1, h.2.2.2.1⟩

/-- `addToSyncQueue` appends exactly one operation, built by
`enqueuedOp`, and bumps the fresh-id counter. -/
theorem addToSyncQueue_eq (operationType endpoint method : String)
    (payload now : Nat) (s : OfflineState) :
    addToSyncQueue operationType endpoint method payload now s =
      { s with
        syncQueue := s.syncQueue ++
          [enqueuedOp operationType endpoint method payload now s.nextId]
        nextId := s.nextId + 1 } :=
  rfl

/-- **C4.**  Offline, each of create / update / delete performs the
local mutation, then enqueues exactly one operation (built by
`enqueuedOp`, hence with `retryCount = 0` and `maxRetries = 5`), then
toasts — the event trace puts the local `invoke` strictly before the
enqueue — and returns the local result successfully. -/
theorem c4_offline_mutations (lex : LocalExec) (nav : Bool)
    (probe : ProbeResult) (remote : Except ThrownError Nat)
    (endpoint cmd opType : String) (d args now : Nat) (st : EngineState)
    (hoff : isOnlineCheck nav probe = false) :
    (routerCreate lex nav probe remote endpoint d cmd opType now st =
      { result := Except.ok (lex cmd d st.localDb).1
        state := ⟨{ st.store with
            syncQueue := st.store.syncQueue ++
              [enqueuedOp opType endpoint "POST" d now st.store.nextId]
            nextId := st.store.nextId + 1 },
          (lex cmd d st.localDb).2⟩
        events := [Ev.localInvoke cmd, Ev.enqueue opType,
          Ev.toast "Created offline. Will sync when online."] }) ∧
    (routerUpdate lex nav probe remote endpoint d cmd args opType now st =
      { result := Except.ok (lex cmd args st.localDb).1
        state := ⟨{ st.store with
            syncQueue := st.store.syncQueue ++
              [enqueuedOp opType endpoint "PUT" d now st.store.nextId]
            nextId := st.store.nextId + 1 },
          (lex cmd args st.localDb).2⟩
        events := [Ev.localInvoke cmd, Ev.enqueue opType,
          Ev.toast "Updated offline. Will sync when online."] }) ∧
    (routerDelete lex nav probe remote endpoint cmd args opType now st =
      { result := Except.ok (lex cmd args st.localDb).1
        state := ⟨{ st.store with
            syncQueue := st.store.syncQueue ++
              [enqueuedOp opType endpoint "DELETE" 0 now st.store.nextId]
            nextId := st.store.nextId + 1 },
          (lex cmd args st.localDb).2⟩
        events := [Ev.localInvoke cmd, Ev.enqueue opType,
          Ev.toast "Deleted offline. Will sync when online."] }) ∧
    (∀ (opT ep m : String) (p n nid : Nat),
      (enqueuedOp opT ep m p n nid).retryCount = 0 ∧
      (enqueuedOp opT ep m p n nid).maxRetries = 5) := by
  refine ⟨?_, ?_, ?_, fun _ _ _ _ _ _ => ⟨rfl, rfl⟩⟩ <;>
    simp [routerCreate, routerUpdate, routerDelete, createOfflineAndQueue,
      updateOfflineAndQueue, deleteOfflineAndQueue, addToSyncQueue_eq, hoff]

/-- Witness for C4: creating product `7` while offline returns the
local result, appends exactly the one fresh queued operation, and logs
the local write before the enqueue. -/
theorem c4_offline_mutations_witness :
    (routerCreate exLex false ProbeResult.failure (Except.ok 0)
        "/inventory/products" 7 "create_product" "product_create" 0
        exEngineState).result = Except.ok 7 ∧
    (routerCreate exLex false ProbeResult.failure (Except.ok 0)
        "/inventory/products" 7 "create_product" "product_create" 0
        exEngineState).state.store.syncQueue =
      [enqueuedOp "product_create" "/inventory/products" "POST" 7 0 1] ∧
    (routerCreate exLex false ProbeResult.failure (Except.ok 0)
        "/inventory/products" 7 "create_product" "product_create" 0
        exEngineState).events =
      [Ev.localInvoke "create_product", Ev.enqueue "product_create",
        Ev.toast "Created offline. Will sync when online."] ∧
    (enqueuedOp "product_create" "/inventory/products" "POST" 7 0 1).retryCount =
      0 := by
  have h := c4_offline_mutations exLex false ProbeResult.failure (Except.ok 0)
    "/inventory/products" "create_product" "product_create" 7 0 0
    exEngineState rfl
  refine ⟨?_, ?_, ?_, (h.2.2.2 "product_create" "/inventory/products" "POST"
    7 0 1).1⟩
  · rw [h.1]
    rfl
  · rw [h.1]
    rfl
  · rw [h.1]

/-- **C2** (code bug).  `updateLocalData` — despite its own doc comment
"Update local database with fresh data from server" and the call-site
comment "Update local database with server response (including
server-generated ID)" — only logs and leaves the state untouched.  So
an online create whose remote call succeeds returns the server result
while the whole engine state, local database included, is unchanged:
creating product `42` online against an empty local database leaves it
empty, and the mirroring invariant the claim states fails.  (Online
delete does remove locally on remote success; create and update mirror
nothing.) -/
theorem c2_online_mirror_missing :
    (∀ (c : String) (d : Nat) (st : EngineState), updateLocalData c d st = st) ∧
    (routerCreate exLex true (ProbeResult.response 200) (Except.ok 42)
        "/inventory/products" 17 "create_product" "product_create" 0
        exEngineState).result = Except.ok 42 ∧
    (routerCreate exLex true (ProbeResult.response 200) (Except.ok 42)
        "/inventory/products" 17 "create_product" "product_create" 0
        exEngineState).state = exEngineState ∧
    (routerCreate exLex true (ProbeResult.response 200) (Except.ok 42)
        "/inventory/products" 17 "create_product" "product_create" 0
        exEngineState).state.localDb = [] :=
  ⟨fun _ _ _ => rfl, rfl, rfl, rfl⟩

/-- **C8.**  `isOnline` is true exactly when the platform reports the
network reachable and the probe received an HTTP response with status
strictly below 500; statuses 401 and 403 count as reachable, 500 does
not, and a probe that throws counts as unreachable; the probe's
timeout is 5000 ms. -/
theorem c8_connectivity_check :
    (∀ (nav : Bool) (probe : ProbeResult),
      isOnlineCheck nav probe = true ↔
        (nav = true ∧ ∃ st, probe = ProbeResult.response st ∧ st < 500)) ∧
    checkConnectivity (ProbeResult.response 401) = true ∧
    checkConnectivity (ProbeResult.response 403) = true ∧
    checkConnectivity (ProbeResult.response 500) = false ∧
    checkConnectivity ProbeResult.failure = false ∧
    connectivityTimeoutMs = 5000 := by
  refine ⟨?_, rfl, rfl, rfl, rfl, rfl⟩
  intro nav probe
  cases probe with
  | response st => simp [isOnlineCheck, checkConnectivity]
  | failure => simp [isOnlineCheck, checkConnectivity]

/-- **C9** (amended).  For a queued operation whose entity is one of
the four handled kinds (`product`, `user`, `order`, `supplier`) and
whose type is none of `CREATE` / `UPDATE` / `DELETE` — e.g. the
router-produced `STOCK`, `COMPLETE`, `CANCEL`, `REFUND` — the replay
falls through the type `switch` and resolves: the next pass removes the
operation as a success, issuing no remote call and appending nothing to
`syncErrors`.  (For entities outside the four handled kinds the replay
throws instead; see the counterexample.) -/
theorem c9_unhandled_type_removed_as_success (env : String → Bool)
    (op : QueuedOperation) (s : OfflineState) (now : Nat)
    (hent : op.entity = "product" ∨ op.entity = "user" ∨ op.entity = "order" ∨
      op.entity = "supplier")
    (hty : op.type ≠ "CREATE" ∧ op.type ≠ "UPDATE" ∧ op.type ≠ "DELETE")
    (hon : s.isOnline = true) (hsy : s.isSyncing = false)
    (hq : s.syncQueue = [op]) :
    processOperation env op = ⟨Except.ok (), []⟩ ∧
    (performSync env [] now s).state.syncQueue = [] ∧
    (performSync env [] now s).state.syncErrors = [] ∧
    (performSync env [] now s).calls = [] := by
  obtain ⟨h1, h2, h3⟩ := hty
  have hproc : processOperation env op = ⟨Except.ok (), []⟩ := by
    rcases hent with he | he | he | he
    · unfold processOperation
      rw [he]
      show syncProduct env op.type = _
      unfold syncProduct
      split <;> simp_all
    · unfold processOperation
      rw [he]
      show syncUser env op.type = _
      unfold syncUser
      split <;> simp_all
    · unfold processOperation
      rw [he]
      show syncOrder env op.type = _
      unfold syncOrder
      split <;> simp_all
    · unfold processOperation
      rw [he]
      show syncSupplier env op.type = _
      unfold syncSupplier
      split <;> simp_all
  have hok : replayOk (processOperation env op) = true := by
    rw [hproc]
    rfl
  have hp := performSync_single_ok env op s now hon hsy hq hok
  refine ⟨hproc, ?_, ?_, ?_⟩
  · rw [hp]
  · rw [hp]
  · rw [hp]
    show (processOperation env op).calls = []
    rw [hproc]

/-- Witness for the amended C9 at the router-produced stock update
(entity `product`, type `STOCK`). -/
theorem c9_unhandled_type_removed_as_success_witness :
    processOperation (fun _ => true) exStockOp = ⟨Except.ok (), []⟩ ∧
    (performSync (fun _ => true) [] 0
        (singleOpState exStockOp)).state.syncQueue = [] ∧
    (performSync (fun _ => true) [] 0 (singleOpState exStockOp)).calls =
      [] := by
  have h := c9_unhandled_type_removed_as_success (fun _ => true) exStockOp
    (singleOpState exStockOp) 0 (Or.inl rfl)
    ⟨by decide, by decide, by decide⟩ rfl rfl rfl
  exact ⟨h.1, h.2.1, h.2.2.2⟩

/-- **C9, counterexample.**  The router itself produces a queued
operation with a non-CRUD type that the next pass does not remove:
generating a sales report offline goes through
`this.create(..., 'sales_report')`, which enqueues entity `sales`,
type `REPORT`; its replay throws `Unknown entity type: sales`, so the
next pass leaves it in the queue with `retryCount = 1` instead of
removing it as a success. -/
theorem c9_counterexample :
    (addToSyncQueue "sales_report" "/sales/reports/sales" "POST" 0 0
        emptyState).syncQueue = [exSalesOp] ∧
    (exSalesOp.type ≠ "CREATE" ∧ exSalesOp.type ≠ "UPDATE" ∧
      exSalesOp.type ≠ "DELETE") ∧
    processOperation (fun _ => true) exSalesOp =
      ⟨Except.error "Unknown entity type: sales", []⟩ ∧
    (performSync (fun _ => true) [] 0
        (singleOpState exSalesOp)).state.syncQueue =
      [{ exSalesOp with retryCount := 1 }] :=
  ⟨rfl, ⟨by decide, by decide, by decide⟩, rfl, rfl⟩

end OfflineSync

